import Mathlib

/-!
Verification of the natural-language → SQL pipeline in `app12.py`.

The development shallowly embeds the three pipeline components of the source:

* `get_gemini_response` (query synthesizer, lines 82–93): the collaborator
  response is modelled as `Except Str Str` (raised exception vs. returned
  text); the markdown-fence stripping (`strip`, `replace('```sql','')`,
  `replace('```','')`, `strip`) is modelled character-exactly on `List Char`.
* `read_sqlite_query` (executor, lines 96–110) and `list_tables`
  (schema guard, lines 113–126): the SQLite store is modelled by a behaviour
  datatype saying whether `connect` raises, whether `execute`/`fetchall`
  raises, and otherwise which rows and which column descriptor come back;
  connection open/close calls are recorded as an event trace.
* the Streamlit driver (lines 141–168), producing the ordered list of
  emitted messages, the optionally displayed SQL text and table, and a flag
  recording whether the executor was invoked.
-/

/-! ## Python strings as character lists -/

abbrev Str := List Char

/-- The backtick character (not written literally). -/
def bq : Char := Char.ofNat 96

/-- Whitespace characters recognised by Python's `str.strip()`
(ASCII fragment: space, tab, newline, carriage return, vertical tab, form feed). -/
def isPySpace (c : Char) : Bool :=
  c = ' ' || c = '\t' || c = '\n' || c = '\r' || c = Char.ofNat 11 || c = Char.ofNat 12

/-- Python `s.strip()`: drop whitespace from the front, then from the back. -/
def pyStrip (s : Str) : Str :=
  ((s.dropWhile isPySpace).reverse.dropWhile isPySpace).reverse

/-- Executable test that `p` is a prefix of `s`. -/
def isPre : Str → Str → Bool
  | [], _ => true
  | _ :: _, [] => false
  | a :: p, b :: s => a = b && isPre p s

/-- Worker for `pyReplaceDel`: `skip` counts characters of an already
matched occurrence still to be discarded before scanning resumes. -/
def pyReplaceDelGo (c : Char) (ps : Str) : Str → Nat → Str
  | [], _ => []
  | _ :: t, n + 1 => pyReplaceDelGo c ps t n
  | a :: t, 0 =>
    if isPre (c :: ps) (a :: t) then pyReplaceDelGo c ps t ps.length
    else a :: pyReplaceDelGo c ps t 0

/-- Python `s.replace(pat, '')` for a non-empty pattern `c :: ps`:
scan left to right, delete each non-overlapping occurrence, continue
scanning right after the deleted occurrence (no rescan of earlier text). -/
def pyReplaceDel (c : Char) (ps : Str) (s : Str) : Str := pyReplaceDelGo c ps s 0

/-- The characters `sql`. -/
def sqlTag : Str := ['s', 'q', 'l']

/-- The fence marker: three backticks. -/
def fence : Str := [bq, bq, bq]

/-- Model of `s.replace('```sql', '')` (line 89 of app12.py). -/
def delFenceSql (s : Str) : Str := pyReplaceDel bq (bq :: bq :: sqlTag) s

/-- Model of `s.replace('```', '')` (line 89 of app12.py). -/
def delFence (s : Str) : Str := pyReplaceDel bq [bq, bq] s

/-- The whole cleanup applied to the collaborator's raw text in
`get_gemini_response` (lines 87–89): `strip`, delete `'```sql'`,
delete `'```'`, `strip`. -/
def stripFences (raw : Str) : Str :=
  pyStrip (delFence (delFenceSql (pyStrip raw)))

/-! ## Facts about the fence-stripping transformation -/

theorem isPre_iff {p s : Str} : isPre p s = true ↔ p <+: s := by
  induction p generalizing s with
  | nil => simp [isPre]
  | cons a p ih =>
    cases s with
    | nil => simp [isPre]
    | cons b t =>
      simp [isPre, List.cons_prefix_cons, ih]

/-- Length of the leading run of backticks. -/
def btRun : Str → Nat
  | [] => 0
  | a :: t => if a = bq then btRun t + 1 else 0

theorem replicate_bq_pre {n : Nat} {l : Str} : List.replicate n bq <+: l ↔ n ≤ btRun l := by
  induction n generalizing l with
  | zero => simp
  | succ n ih =>
    cases l with
    | nil =>
      rw [List.replicate_succ]
      constructor
      · intro hp
        rcases hp with ⟨w, hw⟩
        simp at hw
      · intro hle
        simp [btRun] at hle
    | cons a t =>
      rw [List.replicate_succ, List.cons_prefix_cons]
      by_cases ha : a = bq
      · subst ha
        simp [btRun, ih]
      · have hba : ¬ bq = a := fun h => ha h.symm
        simp [btRun, ha, hba]

theorem two_bq_pre {l : Str} : [bq, bq] <+: l ↔ 2 ≤ btRun l := by
  have h := @replicate_bq_pre 2 l
  simpa using h

theorem btRun_cons_bq (t : Str) : btRun (bq :: t) = btRun t + 1 := by
  simp [btRun]

theorem pyReplaceDelGo_skip (c : Char) (ps : Str) :
    ∀ (t : Str) (n : Nat), pyReplaceDelGo c ps t n = pyReplaceDelGo c ps (t.drop n) 0 := by
  intro t
  induction t with
  | nil => intro n; cases n <;> rfl
  | cons a t ih =>
    intro n
    cases n with
    | zero => rfl
    | succ m => simpa [pyReplaceDelGo] using ih m

theorem pyReplaceDel_cons (c : Char) (ps : Str) (a : Char) (t : Str) :
    pyReplaceDel c ps (a :: t) =
      if isPre (c :: ps) (a :: t) then pyReplaceDel c ps (t.drop ps.length)
      else a :: pyReplaceDel c ps t := by
  simp only [pyReplaceDel, pyReplaceDelGo]
  rw [pyReplaceDelGo_skip]

/-- Deleting every occurrence of ` ``` ` leaves a leading backtick run of
length `btRun s % 3`. -/
theorem btRun_delFence (s : Str) : btRun (delFence s) = btRun s % 3 := by
  generalize hn : s.length = n
  induction n using Nat.strong_induction_on generalizing s with
  | _ n ih =>
    subst hn
    cases s with
    | nil => rfl
    | cons a t =>
      simp only [delFence] at *
      rw [pyReplaceDel_cons]
      by_cases h : isPre (bq :: [bq, bq]) (a :: t)
      · rw [if_pos h]
        rcases isPre_iff.mp h with ⟨u, hu⟩
        have hu' : bq :: bq :: bq :: u = a :: t := hu
        injection hu' with h1 h2
        subst h1
        subst h2
        have ihu := ih u.length (by simp only [List.length_cons]; omega) u rfl
        show btRun (pyReplaceDel bq [bq, bq] u) = btRun (bq :: bq :: bq :: u) % 3
        rw [ihu, btRun_cons_bq, btRun_cons_bq, btRun_cons_bq]
        omega
      · rw [if_neg h]
        have iht := ih t.length (by simp only [List.length_cons]; omega) t rfl
        by_cases ha : a = bq
        · subst ha
          have hle : btRun t ≤ 1 := by
            by_contra hgt
            push_neg at hgt
            apply h
            apply isPre_iff.mpr
            rcases two_bq_pre.mpr hgt with ⟨w, hw⟩
            exact ⟨w, by subst hw; rfl⟩
          rw [btRun_cons_bq, btRun_cons_bq]
          omega
        · simp [btRun, ha]

/-- After deleting every occurrence of ` ``` `, the string contains no
occurrence of ` ``` ` anywhere. -/
theorem delFence_no_fence (s : Str) : ¬ fence <:+: delFence s := by
  generalize hn : s.length = n
  induction n using Nat.strong_induction_on generalizing s with
  | _ n ih =>
    subst hn
    cases s with
    | nil => simp [delFence, pyReplaceDel, pyReplaceDelGo, fence]
    | cons a t =>
      simp only [delFence] at *
      rw [pyReplaceDel_cons]
      by_cases h : isPre (bq :: [bq, bq]) (a :: t)
      · rw [if_pos h]
        rcases isPre_iff.mp h with ⟨u, hu⟩
        have hu' : bq :: bq :: bq :: u = a :: t := hu
        injection hu' with h1 h2
        subst h1
        subst h2
        show ¬ fence <:+: pyReplaceDel bq [bq, bq] u
        exact ih u.length (by simp only [List.length_cons]; omega) u rfl
      · rw [if_neg h]
        intro hinf
        rcases List.infix_cons_iff.mp hinf with hpre | hinf'
        · rcases hpre with ⟨w, hw⟩
          have hw' : bq :: bq :: bq :: w = a :: pyReplaceDel bq [bq, bq] t := hw
          injection hw' with h1 h2
          subst h1
          have h2' : (2 : Nat) ≤ btRun (pyReplaceDel bq [bq, bq] t) :=
            two_bq_pre.mp ⟨w, h2⟩
          have hbd : btRun (pyReplaceDel bq [bq, bq] t) = btRun t % 3 := btRun_delFence t
          have hle : btRun t ≤ 1 := by
            by_contra hgt
            push_neg at hgt
            apply h
            apply isPre_iff.mpr
            rcases two_bq_pre.mpr hgt with ⟨v, hv⟩
            exact ⟨v, by subst hv; rfl⟩
          omega
        · exact ih t.length (by simp only [List.length_cons]; omega) t rfl hinf'

/-- A replace with a pattern that does not occur is the identity. -/
theorem pyReplaceDel_eq_self {c : Char} {ps : Str} :
    ∀ s : Str, ¬ (c :: ps) <:+: s → pyReplaceDel c ps s = s := by
  intro s
  generalize hn : s.length = n
  induction n using Nat.strong_induction_on generalizing s with
  | _ n ih =>
    subst hn
    intro h
    cases s with
    | nil => rfl
    | cons a t =>
      rw [pyReplaceDel_cons, if_neg]
      · have ht : pyReplaceDel c ps t = t :=
          ih t.length (by simp only [List.length_cons]; omega) t rfl
            (fun hi => h (hi.trans (List.suffix_cons a t).isInfix))
        rw [ht]
      · intro hp
        exact h (isPre_iff.mp hp).isInfix

theorem dropWhile_head_false {p : Char → Bool} :
    ∀ {l : Str} {a : Char} {t : Str}, List.dropWhile p l = a :: t → p a = false := by
  intro l
  induction l with
  | nil => intro a t h; cases h
  | cons b l ih =>
    intro a t h
    rw [List.dropWhile_cons] at h
    by_cases hb : p b
    · rw [if_pos hb] at h
      exact ih h
    · rw [if_neg hb] at h
      injection h with h1 h2
      subst h1
      simpa using hb

theorem pyStrip_eq (s : Str) :
    pyStrip s = List.rdropWhile isPySpace (List.dropWhile isPySpace s) := rfl

theorem pyStrip_infix_self (s : Str) : pyStrip s <:+: s := by
  rw [pyStrip_eq]
  have h1 : List.dropWhile isPySpace s <:+ s := List.dropWhile_suffix _
  have h2 := List.rdropWhile_prefix isPySpace (List.dropWhile isPySpace s)
  exact h2.isInfix.trans h1.isInfix

theorem pyStrip_idem (s : Str) : pyStrip (pyStrip s) = pyStrip s := by
  rw [pyStrip_eq, pyStrip_eq]
  rcases h : List.rdropWhile isPySpace (List.dropWhile isPySpace s) with _ | ⟨a, t⟩
  · simp
  · have hpre := List.rdropWhile_prefix isPySpace (List.dropWhile isPySpace s)
    rw [h] at hpre
    rcases hpre with ⟨w, hw⟩
    have hw' : List.dropWhile isPySpace s = a :: (t ++ w) := by
      rw [← hw]
      rfl
    have ha : isPySpace a = false := dropWhile_head_false hw'
    rw [List.dropWhile_cons, if_neg (by simp [ha])]
    conv_lhs => rw [← h]
    rw [List.rdropWhile_idempotent]
    exact h

/-- The synthesizer's cleanup never leaves a fence marker in its output. -/
theorem stripFences_no_fence (raw : Str) : ¬ fence <:+: stripFences raw := by
  intro h
  exact delFence_no_fence (delFenceSql (pyStrip raw)) (h.trans (pyStrip_infix_self _))

/-- C8: the fence-stripping transformation of the synthesizer (strip,
delete ` ```sql `, delete ` ``` `, strip) is idempotent — applying it twice
yields the same string as applying it once. -/
theorem stripFences_idem (raw : Str) : stripFences (stripFences raw) = stripFences raw := by
  have hnf : ¬ fence <:+: stripFences raw := stripFences_no_fence raw
  have hnfs : ¬ (bq :: bq :: bq :: sqlTag) <:+: stripFences raw := by
    intro h
    exact hnf ((show fence <+: bq :: bq :: bq :: sqlTag from ⟨sqlTag, rfl⟩).isInfix.trans h)
  have hs : pyStrip (stripFences raw) = stripFences raw := by
    show pyStrip (pyStrip (delFence (delFenceSql (pyStrip raw)))) = _
    rw [pyStrip_idem]
    exact rfl
  show pyStrip (delFence (delFenceSql (pyStrip (stripFences raw)))) = stripFences raw
  rw [hs]
  rw [show delFenceSql (stripFences raw) = stripFences raw from
    pyReplaceDel_eq_self _ hnfs]
  rw [show delFence (stripFences raw) = stripFences raw from
    pyReplaceDel_eq_self _ hnf]
  exact hs

example : stripFences "```sql\nSELECT 1\n```".data = "SELECT 1".data := by decide
example : stripFences "".data = "".data := by decide
example : stripFences "```".data = "".data := by decide
example : stripFences "  SELECT * FROM sales_data  ".data = "SELECT * FROM sales_data".data := by
  decide

/-! ## Scalar values, messages, store behaviour -/

/-- A scalar value in a fetched row. -/
inductive Val where
  | int (n : Int)
  | text (s : Str)
  | null
deriving DecidableEq

/-- A fetched row (a Python tuple of scalars). -/
abbrev Row := List Val

/-- A user-visible message shown through Streamlit (`st.error` / `st.warning`). -/
inductive Msg where
  | error (text : Str)
  | warning (text : Str)
deriving DecidableEq

/-- Connection lifecycle events recorded during one store call. -/
inductive ConnEvent where
  | opened
  | closed
deriving DecidableEq

/-- Behaviour of the SQLite store during one `read_sqlite_query` call:
`connectFail` = `sqlite3.connect` raises; `execFail` = `cursor.execute` or
`cursor.fetchall` raises after the connection was opened; `result` =
execution succeeds with the given rows and `cursor.description` projected
to its column names (`none` models `description is None`, as happens for
non-SELECT statements). The `sqlite` flag tells whether a raised exception
is a `sqlite3.Error` (as opposed to any other `Exception`). -/
inductive StoreBehavior where
  | connectFail (sqlite : Bool) (msg : Str)
  | execFail (sqlite : Bool) (msg : Str)
  | result (rows : List Row) (descr : Option (List Str))
deriving DecidableEq

/-- Behaviour of the SQLite store during one `list_tables` call:
`connectFail` = `sqlite3.connect` raises; `readFail` = executing or fetching
the catalog query raises after the connection was opened; `tables` = the
catalog read succeeds with the given rows (normally one-element tuples). -/
inductive CatalogBehavior where
  | connectFail (sqlite : Bool) (msg : Str)
  | readFail (sqlite : Bool) (msg : Str)
  | tables (rows : List Row)
deriving DecidableEq

/-- Text of `f"SQLite Error: {e}"` (line 106). -/
def sqliteErrText (m : Str) : Str := "SQLite Error: ".data ++ m

/-- Text of `f"General Error: {e}"` (line 109). -/
def generalErrText (m : Str) : Str := "General Error: ".data ++ m

/-- Text of `f"SQLite Error while listing tables: {e}"` (line 122). -/
def sqliteErrTablesText (m : Str) : Str := "SQLite Error while listing tables: ".data ++ m

/-- Text of `f"General Error while listing tables: {e}"` (line 125). -/
def generalErrTablesText (m : Str) : Str := "General Error while listing tables: ".data ++ m

/-- Text of `f"Error generating SQL: {e}"` (line 92). -/
def genErrText (m : Str) : Str := "Error generating SQL: ".data ++ m

/-- Rendering of the `TypeError` raised by iterating `cur.description`
when it is `None` (line 102). -/
def noneIterText : Str := "'NoneType' object is not iterable".data

/-- Warning text shown on zero rows (line 166). -/
def noDataText : Str := "No data returned.".data

/-- Error text shown on a shape mismatch (line 164). -/
def mismatchText : Str :=
  "Mismatch between the number of columns in the result and the expected structure.".data

/-- Error text shown when the guard fails (line 168). -/
def tableMissingText : Str := "Table 'sales_data' does not exist in the database.".data

/-! ## The three pipeline components -/

/-- Outcome of a `get_gemini_response` call: the returned value
(`none` = Python `None`) and the messages shown while running. -/
structure SynthResult where
  query : Option Str
  msgs : List Msg
deriving DecidableEq

/-- Model of `get_gemini_response` (lines 82–93). The collaborator call is modelled by
its outcome `gen`: `.ok raw` when `model.generate_content(...).text` yields
`raw`, `.error e` when anything in the `try` block raises an exception whose
rendering is `e`. On success the raw text is stripped (lines 87–89) and
returned; on an exception the handler shows an error and returns `None`. -/
def get_gemini_response : Except Str Str → SynthResult
  | .ok raw => { query := some (stripFences raw), msgs := [] }
  | .error e => { query := none, msgs := [Msg.error (genErrText e)] }

/-- Outcome of a `read_sqlite_query` call: the returned pair, the messages
shown, and the connection events that occurred. -/
structure ExecResult where
  rows : List Row
  cols : List Str
  msgs : List Msg
  events : List ConnEvent
deriving DecidableEq

/-- Model of `read_sqlite_query` (lines 96–110) under store behaviour `b`.
On success (`result rows (some descr)`) the function fetches all rows, reads
the column names, closes the connection and returns `(rows, descr)`.
If `execute`/`fetchall` raises, or `cursor.description` is `None` (so that
the list comprehension on line 102 raises `TypeError`), control jumps to an
`except` handler *before* `conn.close()` on line 103 is reached: the handler
shows an error and returns `([], [])` without closing. If `connect` itself
raises, no connection was opened. -/
def read_sqlite_query : StoreBehavior → ExecResult
  | .connectFail sqlite m =>
      { rows := [], cols := [],
        msgs := [Msg.error (if sqlite then sqliteErrText m else generalErrText m)],
        events := [] }
  | .execFail sqlite m =>
      { rows := [], cols := [],
        msgs := [Msg.error (if sqlite then sqliteErrText m else generalErrText m)],
        events := [ConnEvent.opened] }
  | .result _ none =>
      { rows := [], cols := [],
        msgs := [Msg.error (generalErrText noneIterText)],
        events := [ConnEvent.opened] }
  | .result rows (some descr) =>
      { rows := rows, cols := descr, msgs := [],
        events := [ConnEvent.opened, ConnEvent.closed] }

/-- Outcome of a `list_tables` call. -/
structure TablesResult where
  tables : List Row
  msgs : List Msg
  events : List ConnEvent
deriving DecidableEq

/-- Model of `list_tables` (lines 113–126) under catalog behaviour `c`. Mirrors
`read_sqlite_query`: the error handlers return `[]` without closing the
connection when the catalog read raises after a successful connect. -/
def list_tables : CatalogBehavior → TablesResult
  | .connectFail sqlite m =>
      { tables := [],
        msgs := [Msg.error (if sqlite then sqliteErrTablesText m else generalErrTablesText m)],
        events := [] }
  | .readFail sqlite m =>
      { tables := [],
        msgs := [Msg.error (if sqlite then sqliteErrTablesText m else generalErrTablesText m)],
        events := [ConnEvent.opened] }
  | .tables rows =>
      { tables := rows, msgs := [], events := [ConnEvent.opened, ConnEvent.closed] }

/-! ## The Streamlit driver -/

/-- The catalog row `('sales_data',)` tested on line 153. -/
def salesRow : Row := [Val.text "sales_data".data]

/-- Lines 156–166: given the executor's output, the messages shown by the
shape-validation step and the table displayed (if any). -/
def renderResults (er : ExecResult) : List Msg × Option (List Str × List Row) :=
  match er.rows with
  | [] => ([Msg.warning noDataText], none)
  | r :: _ =>
    if er.cols.length = r.length then ([], some (er.cols, er.rows))
    else ([Msg.error mismatchText], none)

/-- Observable outcome of one driver run: messages in emission order, the
SQL text displayed by `st.code` (if reached), the table displayed by
`st.dataframe` (if reached), and whether `read_sqlite_query` was invoked. -/
structure PipelineResult where
  msgs : List Msg
  shownSql : Option Str
  table : Option (List Str × List Row)
  execCalled : Bool
deriving DecidableEq

/-- The driver (lines 141–168). `submit` and `question` are the UI inputs
(line 141 tests both for truthiness); `gen` is the collaborator outcome for
the `get_gemini_response` call; `cat` the store behaviour for the
`list_tables` call; `store q` the store behaviour when `read_sqlite_query`
is invoked with statement `q`. -/
def pipeline (submit : Bool) (question : Str) (gen : Except Str Str)
    (cat : CatalogBehavior) (store : Str → StoreBehavior) : PipelineResult :=
  if submit && !question.isEmpty then
    let g := get_gemini_response gen
    match g.query with
    | none => { msgs := g.msgs, shownSql := none, table := none, execCalled := false }
    | some q =>
      if q.isEmpty then
        { msgs := g.msgs, shownSql := none, table := none, execCalled := false }
      else
        let tr := list_tables cat
        if salesRow ∈ tr.tables then
          let er := read_sqlite_query (store q)
          { msgs := g.msgs ++ tr.msgs ++ er.msgs ++ (renderResults er).1,
            shownSql := some q, table := (renderResults er).2, execCalled := true }
        else
          { msgs := g.msgs ++ tr.msgs ++ [Msg.error tableMissingText],
            shownSql := some q, table := none, execCalled := false }
  else
    { msgs := [], shownSql := none, table := none, execCalled := false }

/-- The statement the driver would execute: the synthesizer's returned text
(`[]` when synthesis failed). -/
def synthesizedSql (gen : Except Str Str) : Str :=
  ((get_gemini_response gen).query).getD []

/-! ## A case rundown of the driver -/

theorem isEmpty_eq_true_iff {l : Str} : l.isEmpty = true ↔ l = [] := by
  cases l <;> simp

/-- Every driver run has one of five shapes: no run, synthesis failure,
empty synthesis, guard failure (catalog error or absent table), or the
executor branch. -/
theorem pipeline_rundown (submit : Bool) (question : Str) (gen : Except Str Str)
    (cat : CatalogBehavior) (store : Str → StoreBehavior) :
    pipeline submit question gen cat store =
        { msgs := [], shownSql := none, table := none, execCalled := false } ∨
    (∃ e, gen = Except.error e ∧
      pipeline submit question gen cat store =
        { msgs := [Msg.error (genErrText e)], shownSql := none, table := none,
          execCalled := false }) ∨
    (∃ raw, gen = Except.ok raw ∧ stripFences raw = [] ∧
      pipeline submit question gen cat store =
        { msgs := [], shownSql := none, table := none, execCalled := false }) ∨
    (∃ raw, gen = Except.ok raw ∧ stripFences raw ≠ [] ∧
      salesRow ∉ (list_tables cat).tables ∧
      pipeline submit question gen cat store =
        { msgs := (list_tables cat).msgs ++ [Msg.error tableMissingText],
          shownSql := some (stripFences raw), table := none, execCalled := false }) ∨
    (∃ raw rows, gen = Except.ok raw ∧ stripFences raw ≠ [] ∧
      cat = CatalogBehavior.tables rows ∧ salesRow ∈ rows ∧
      pipeline submit question gen cat store =
        { msgs := (read_sqlite_query (store (stripFences raw))).msgs ++
            (renderResults (read_sqlite_query (store (stripFences raw)))).1,
          shownSql := some (stripFences raw),
          table := (renderResults (read_sqlite_query (store (stripFences raw)))).2,
          execCalled := true }) := by
  by_cases hs : (submit && !question.isEmpty) = true
  · cases gen with
    | error e =>
      right; left
      exact ⟨e, rfl, by simp [pipeline, get_gemini_response, hs]⟩
    | ok raw =>
      by_cases hq : (stripFences raw).isEmpty = true
      · right; right; left
        exact ⟨raw, rfl, isEmpty_eq_true_iff.mp hq,
          by simp [pipeline, get_gemini_response, hs, hq]⟩
      · by_cases hm : salesRow ∈ (list_tables cat).tables
        · right; right; right; right
          have hcat : ∃ rows, cat = CatalogBehavior.tables rows ∧ salesRow ∈ rows := by
            cases cat with
            | tables rows => exact ⟨rows, rfl, by simpa [list_tables] using hm⟩
            | connectFail sq m => simp [list_tables] at hm
            | readFail sq m => simp [list_tables] at hm
          rcases hcat with ⟨rows, rfl, hrow⟩
          refine ⟨raw, rows, rfl, fun he => hq (isEmpty_eq_true_iff.mpr he), rfl, hrow, ?_⟩
          simp [pipeline, get_gemini_response, hs, hq, hrow, list_tables]
        · right; right; right; left
          refine ⟨raw, rfl, fun he => hq (isEmpty_eq_true_iff.mpr he), hm, ?_⟩
          simp [pipeline, get_gemini_response, hs, hq, hm]
  · left
    simp [pipeline, hs]

/-! ## Message-class helpers -/

theorem warning_not_mem_synth (w : Str) (gen : Except Str Str) :
    Msg.warning w ∉ (get_gemini_response gen).msgs := by
  cases gen <;> simp [get_gemini_response]

theorem warning_not_mem_tables (w : Str) (c : CatalogBehavior) :
    Msg.warning w ∉ (list_tables c).msgs := by
  cases c <;> simp [list_tables]

theorem warning_not_mem_exec (w : Str) (b : StoreBehavior) :
    Msg.warning w ∉ (read_sqlite_query b).msgs := by
  cases b with
  | connectFail sq m => simp [read_sqlite_query]
  | execFail sq m => simp [read_sqlite_query]
  | result rows descr => cases descr <;> simp [read_sqlite_query]

theorem sqliteErrText_ne_mismatch (m : Str) : sqliteErrText m ≠ mismatchText := by
  intro h
  have h1 : (sqliteErrText m).head? = some 'S' := rfl
  rw [h] at h1
  exact absurd h1 (by decide)

theorem generalErrText_ne_mismatch (m : Str) : generalErrText m ≠ mismatchText := by
  intro h
  have h1 : (generalErrText m).head? = some 'G' := rfl
  rw [h] at h1
  exact absurd h1 (by decide)

theorem mismatch_not_mem_exec (b : StoreBehavior) :
    Msg.error mismatchText ∉ (read_sqlite_query b).msgs := by
  cases b with
  | connectFail sq m =>
    cases sq <;>
      simp [read_sqlite_query, (sqliteErrText_ne_mismatch m).symm,
        (generalErrText_ne_mismatch m).symm]
  | execFail sq m =>
    cases sq <;>
      simp [read_sqlite_query, (sqliteErrText_ne_mismatch m).symm,
        (generalErrText_ne_mismatch m).symm]
  | result rows descr =>
    cases descr <;>
      simp [read_sqlite_query, (generalErrText_ne_mismatch noneIterText).symm]

/-! ## Claims -/

/-- C1, counterexample: when `cursor.execute` raises a `sqlite3.Error`
mid-query, `read_sqlite_query` returns from its `except` handler with the
connection it opened still unclosed — the claim that every store call closes
its connection on every error path is false. -/
theorem c1_counterexample :
    ConnEvent.opened ∈
      (read_sqlite_query (StoreBehavior.execFail true "database is locked".data)).events ∧
    ConnEvent.closed ∉
      (read_sqlite_query (StoreBehavior.execFail true "database is locked".data)).events := by
  decide

/-- C1 (amended): the Schema Guard and the Executor close their connection
before returning exactly on the success path; on every error path after a
successful connect (execute, fetch, or catalog read raising) the call
returns from the `except` handler without closing, and when `connect` itself
raises no connection was opened. -/
theorem c1_connection_close (b : StoreBehavior) (c : CatalogBehavior) :
    ((ConnEvent.closed ∈ (read_sqlite_query b).events) ↔
      ∃ rows descr, b = StoreBehavior.result rows (some descr)) ∧
    ((ConnEvent.closed ∈ (list_tables c).events) ↔
      ∃ rows, c = CatalogBehavior.tables rows) := by
  constructor
  · cases b with
    | connectFail sq m => simp [read_sqlite_query]
    | execFail sq m => simp [read_sqlite_query]
    | result rows descr => cases descr <;> simp [read_sqlite_query]
  · cases c with
    | connectFail sq m => simp [list_tables]
    | readFail sq m => simp [list_tables]
    | tables rows => simp [list_tables]

/-- C2, counterexample: when SQL execution fails, the executor shows its
error message and returns `([], [])`, and the driver's `else` branch on
line 165 then *also* shows the "No data returned." warning — so the warning
is reported on a failed execution, contradicting the claim. -/
theorem c2_counterexample :
    Msg.error (sqliteErrText "no such column: x".data) ∈
      (pipeline true "q".data (Except.ok "SELECT x FROM sales_data".data)
        (CatalogBehavior.tables [salesRow])
        (fun _ => StoreBehavior.execFail true "no such column: x".data)).msgs ∧
    Msg.warning noDataText ∈
      (pipeline true "q".data (Except.ok "SELECT x FROM sales_data".data)
        (CatalogBehavior.tables [salesRow])
        (fun _ => StoreBehavior.execFail true "no such column: x".data)).msgs := by
  decide

/-- C2 (amended): the "No data returned." warning is reported exactly when
the executor branch runs and `read_sqlite_query` returns empty rows — which
covers a zero-row success, but also every execution failure (after the error
message) and the missing-descriptor case, since those return `([], [])`.
It is a warning, never the ShapeMismatch error: whenever the executor
returns empty rows the ShapeMismatch message is not shown. -/
theorem c2_noData (submit : Bool) (question : Str) (gen : Except Str Str)
    (cat : CatalogBehavior) (store : Str → StoreBehavior) :
    (Msg.warning noDataText ∈ (pipeline submit question gen cat store).msgs ↔
      ((pipeline submit question gen cat store).execCalled = true ∧
        (read_sqlite_query (store (synthesizedSql gen))).rows = [])) ∧
    ((pipeline submit question gen cat store).execCalled = true →
      (read_sqlite_query (store (synthesizedSql gen))).rows = [] →
      Msg.error mismatchText ∉ (pipeline submit question gen cat store).msgs) := by
  rcases pipeline_rundown submit question gen cat store with
    h | ⟨e, rfl, h⟩ | ⟨raw, rfl, hemp, h⟩ | ⟨raw, rfl, hne, hnm, h⟩ |
    ⟨raw, rows, rfl, hne, rfl, hrow, h⟩
  · rw [h]
    simp
  · rw [h]
    simp
  · rw [h]
    simp
  · rw [h]
    constructor
    · simp [warning_not_mem_tables noDataText cat]
    · simp
  · rw [h]
    have hsyn : synthesizedSql (Except.ok raw) = stripFences raw := rfl
    rw [hsyn]
    constructor
    · cases hr : (read_sqlite_query (store (stripFences raw))).rows with
      | nil =>
        simp [renderResults, hr, warning_not_mem_exec noDataText (store (stripFences raw))]
      | cons r rs =>
        by_cases hlen :
            (read_sqlite_query (store (stripFences raw))).cols.length = r.length <;>
          simp [renderResults, hr, hlen,
            warning_not_mem_exec noDataText (store (stripFences raw))]
    · intro _ hr
      simp [renderResults, hr, mismatch_not_mem_exec (store (stripFences raw))]

/-- C2, witness for the amended theorem at a zero-row success. -/
theorem c2_witness :
    Msg.error mismatchText ∉
      (pipeline true "q".data (Except.ok "SELECT 1".data) (CatalogBehavior.tables [salesRow])
        (fun _ => StoreBehavior.result [] (some ["c".data]))).msgs :=
  (c2_noData true "q".data (Except.ok "SELECT 1".data) (CatalogBehavior.tables [salesRow])
    (fun _ => StoreBehavior.result [] (some ["c".data]))).2 (by decide) (by decide)

/-- C3, counterexample: for the collaborator response ` ``` ` the synthesizer
returns the empty string as a success (no error is reported) — contradicting
the claim that it never returns an empty string as a success. -/
theorem c3_counterexample :
    (get_gemini_response (Except.ok "```".data)).query = some [] ∧
    (get_gemini_response (Except.ok "```".data)).msgs = [] := by
  decide

/-- C3 (amended): for every collaborator outcome the synthesizer either
returns a string in which no fencing marker remains — though that string may
be empty, in which case the driver's truthiness gate halts the pipeline — or
reports the failure and returns no query. -/
theorem c3_synthesis (gen : Except Str Str) :
    (∀ s, (get_gemini_response gen).query = some s → ¬ fence <:+: s) ∧
    ((get_gemini_response gen).query = none →
      ∃ e, gen = Except.error e ∧
        (get_gemini_response gen).msgs = [Msg.error (genErrText e)]) := by
  cases gen with
  | ok raw =>
    constructor
    · intro s hs
      have hs' : stripFences raw = s := by
        simpa [get_gemini_response] using hs
      subst hs'
      exact stripFences_no_fence raw
    · intro hnone
      simp [get_gemini_response] at hnone
  | error e =>
    constructor
    · intro s hs
      simp [get_gemini_response] at hs
    · intro _
      exact ⟨e, rfl, rfl⟩

/-- C3, witness: the stripped scenario-B response contains no fence. -/
theorem c3_witness : ¬ fence <:+: "SELECT 1".data :=
  (c3_synthesis (Except.ok "```sql\nSELECT 1\n```".data)).1 "SELECT 1".data (by decide)

/-- C4: the executor is invoked only when the catalog read succeeded and the
returned catalog contains the row `('sales_data',)`; a catalog-access
failure (which makes `list_tables` return `[]`) and an absent table both
block execution. -/
theorem c4_guard (submit : Bool) (question : Str) (gen : Except Str Str)
    (cat : CatalogBehavior) (store : Str → StoreBehavior)
    (hexec : (pipeline submit question gen cat store).execCalled = true) :
    ∃ rows, cat = CatalogBehavior.tables rows ∧ salesRow ∈ rows := by
  rcases pipeline_rundown submit question gen cat store with
    h | ⟨e, rfl, h⟩ | ⟨raw, rfl, hemp, h⟩ | ⟨raw, rfl, hne, hnm, h⟩ |
    ⟨raw, rows, rfl, hne, rfl, hrow, h⟩
  · rw [h] at hexec
    simp at hexec
  · rw [h] at hexec
    simp at hexec
  · rw [h] at hexec
    simp at hexec
  · rw [h] at hexec
    simp at hexec
  · exact ⟨rows, rfl, hrow⟩

/-- C4, witness. -/
theorem c4_witness :
    ∃ rows, CatalogBehavior.tables [salesRow] = CatalogBehavior.tables rows ∧
      salesRow ∈ rows :=
  c4_guard true "q".data (Except.ok "SELECT 1".data) (CatalogBehavior.tables [salesRow])
    (fun _ => StoreBehavior.result [] (some [])) (by decide)

/-- C5: if execution succeeds with at least one row and the first row's
arity differs from the column-label count, the driver shows the
ShapeMismatch error and displays no table. -/
theorem c5_shape_mismatch (submit : Bool) (question : Str) (gen : Except Str Str)
    (cat : CatalogBehavior) (store : Str → StoreBehavior)
    (r : Row) (rs : List Row) (cols : List Str)
    (hexec : (pipeline submit question gen cat store).execCalled = true)
    (hstore : store (synthesizedSql gen) = StoreBehavior.result (r :: rs) (some cols))
    (hlen : cols.length ≠ r.length) :
    Msg.error mismatchText ∈ (pipeline submit question gen cat store).msgs ∧
    (pipeline submit question gen cat store).table = none := by
  rcases pipeline_rundown submit question gen cat store with
    h | ⟨e, rfl, h⟩ | ⟨raw, rfl, hemp, h⟩ | ⟨raw, rfl, hne, hnm, h⟩ |
    ⟨raw, rows, rfl, hne, rfl, hrow, h⟩
  · rw [h] at hexec
    simp at hexec
  · rw [h] at hexec
    simp at hexec
  · rw [h] at hexec
    simp at hexec
  · rw [h] at hexec
    simp at hexec
  · rw [show synthesizedSql (Except.ok raw) = stripFences raw from rfl] at hstore
    rw [h, hstore]
    simp [read_sqlite_query, renderResults, hlen]

/-- C5, witness. -/
theorem c5_witness :
    Msg.error mismatchText ∈
      (pipeline true "q".data (Except.ok "SELECT 1".data) (CatalogBehavior.tables [salesRow])
        (fun _ => StoreBehavior.result [[Val.int 1, Val.int 2]] (some ["a".data]))).msgs ∧
    (pipeline true "q".data (Except.ok "SELECT 1".data) (CatalogBehavior.tables [salesRow])
      (fun _ => StoreBehavior.result [[Val.int 1, Val.int 2]] (some ["a".data]))).table =
      none :=
  c5_shape_mismatch true "q".data (Except.ok "SELECT 1".data)
    (CatalogBehavior.tables [salesRow])
    (fun _ => StoreBehavior.result [[Val.int 1, Val.int 2]] (some ["a".data]))
    [Val.int 1, Val.int 2] [] ["a".data] (by decide) (by decide) (by decide)

/-- C6: when the collaborator call raises, `get_gemini_response` catches the
exception, shows an error carrying the underlying text, and returns `None`
without re-raising; the driver then halts with only that message, showing
and executing nothing. -/
theorem c6_synthesis_failure (question : Str) (e : Str) (cat : CatalogBehavior)
    (store : Str → StoreBehavior) (hq : question ≠ []) :
    get_gemini_response (Except.error e) =
      { query := none, msgs := [Msg.error (genErrText e)] } ∧
    pipeline true question (Except.error e) cat store =
      { msgs := [Msg.error (genErrText e)], shownSql := none, table := none,
        execCalled := false } := by
  refine ⟨rfl, ?_⟩
  have hqe : question.isEmpty = false := by
    cases question with
    | nil => exact absurd rfl hq
    | cons a t => rfl
  simp [pipeline, get_gemini_response, hqe]

/-- C6, witness. -/
theorem c6_witness :
    get_gemini_response (Except.error "quota exceeded".data) =
      { query := none, msgs := [Msg.error (genErrText "quota exceeded".data)] } ∧
    pipeline true "q".data (Except.error "quota exceeded".data)
      (CatalogBehavior.tables [salesRow]) (fun _ => StoreBehavior.result [] (some [])) =
      { msgs := [Msg.error (genErrText "quota exceeded".data)], shownSql := none,
        table := none, execCalled := false } :=
  c6_synthesis_failure "q".data "quota exceeded".data (CatalogBehavior.tables [salesRow])
    (fun _ => StoreBehavior.result [] (some [])) (by decide)

/-- C7: when execution (or the connect) fails with a `sqlite3.Error`, the
executor shows the store's native error text and returns exactly
`([], [])` — empty rows and empty column labels, never a partial result. -/
theorem c7_store_error (m : Str) :
    read_sqlite_query (StoreBehavior.execFail true m) =
      { rows := [], cols := [], msgs := [Msg.error (sqliteErrText m)],
        events := [ConnEvent.opened] } ∧
    read_sqlite_query (StoreBehavior.connectFail true m) =
      { rows := [], cols := [], msgs := [Msg.error (sqliteErrText m)], events := [] } :=
  ⟨rfl, rfl⟩

/-! ## C9: fence stripping on a wrapped statement -/

theorem pyReplaceDel_front (c : Char) (ps r : Str) :
    pyReplaceDel c ps (c :: (ps ++ r)) = pyReplaceDel c ps r := by
  have hp : isPre (c :: ps) (c :: (ps ++ r)) = true := isPre_iff.mpr ⟨r, rfl⟩
  rw [pyReplaceDel_cons, if_pos hp]
  congr 1
  exact List.drop_left ps r

theorem pyReplaceDel_clean (c : Char) (ps : Str) :
    ∀ (body r : Str), c ∉ body →
      pyReplaceDel c ps (body ++ r) = body ++ pyReplaceDel c ps r := by
  intro body
  induction body with
  | nil =>
    intro r _
    simp
  | cons a b ih =>
    intro r hb
    have hca : ¬ c = a := fun he => hb (he ▸ List.mem_cons_self a b)
    have hcond : ¬ isPre (c :: ps) (a :: (b ++ r)) = true := by
      intro hp
      rcases isPre_iff.mp hp with ⟨w, hw⟩
      have hw' : c :: (ps ++ w) = a :: (b ++ r) := hw
      injection hw' with h1 _
      exact hca h1
    show pyReplaceDel c ps (a :: (b ++ r)) = a :: (b ++ pyReplaceDel c ps r)
    rw [pyReplaceDel_cons, if_neg hcond, ih r (fun hc => hb (List.mem_cons_of_mem a hc))]

theorem stripFences_wrapped :
    ∀ body : Str, bq ∉ body →
      stripFences ((fence ++ sqlTag) ++ (body ++ fence)) = pyStrip body := by
  intro body hb
  have h1 : isPySpace bq = false := rfl
  have hd : List.dropWhile isPySpace ((fence ++ sqlTag) ++ (body ++ fence)) =
      (fence ++ sqlTag) ++ (body ++ fence) := by
    show List.dropWhile isPySpace (bq :: ((bq :: bq :: sqlTag) ++ (body ++ fence))) = _
    rw [List.dropWhile_cons]
    simp only [h1, Bool.false_eq_true, if_false]
    rfl
  have hX : (fence ++ sqlTag) ++ (body ++ fence) =
      ((fence ++ sqlTag) ++ (body ++ [bq, bq])) ++ [bq] := by
    rw [show fence = [bq, bq] ++ [bq] from rfl]
    simp [List.append_assoc]
  have hr : List.rdropWhile isPySpace ((fence ++ sqlTag) ++ (body ++ fence)) =
      (fence ++ sqlTag) ++ (body ++ fence) := by
    rw [hX]
    exact List.rdropWhile_concat_neg isPySpace ((fence ++ sqlTag) ++ (body ++ [bq, bq])) bq
      (by simp [h1])
  have hstrip : pyStrip ((fence ++ sqlTag) ++ (body ++ fence)) =
      (fence ++ sqlTag) ++ (body ++ fence) := by
    rw [pyStrip_eq, hd, hr]
  have hdsql : delFenceSql ((fence ++ sqlTag) ++ (body ++ fence)) = body ++ fence := by
    show pyReplaceDel bq (bq :: bq :: sqlTag)
        (bq :: ((bq :: bq :: sqlTag) ++ (body ++ fence))) = body ++ fence
    rw [pyReplaceDel_front]
    rw [show pyReplaceDel bq (bq :: bq :: sqlTag) (body ++ fence) =
        body ++ pyReplaceDel bq (bq :: bq :: sqlTag) fence from
      pyReplaceDel_clean bq (bq :: bq :: sqlTag) body fence hb]
    rw [show pyReplaceDel bq (bq :: bq :: sqlTag) fence = fence from by decide]
  have hdf : delFence (body ++ fence) = body := by
    rw [show delFence (body ++ fence) = body ++ delFence fence from
      pyReplaceDel_clean bq [bq, bq] body fence hb]
    rw [show delFence fence = [] from by decide]
    simp
  show pyStrip (delFence (delFenceSql (pyStrip ((fence ++ sqlTag) ++ (body ++ fence))))) =
    pyStrip body
  rw [hstrip, hdsql, hdf]

/-- C9: the stripping step trims surrounding whitespace and removes the
` ```sql ` opener and bare ` ``` ` closer: for the scenario-B collaborator
response the resulting statement is exactly `SELECT 1`, and in general a
response wrapped as ` ```sql<body>``` ` (for a backtick-free body) strips to
the whitespace-trimmed body. -/
theorem c9_fence_stripping :
    stripFences "```sql\nSELECT 1\n```".data = "SELECT 1".data ∧
    ∀ body : Str, bq ∉ body →
      stripFences ((fence ++ sqlTag) ++ (body ++ fence)) = pyStrip body :=
  ⟨by decide, stripFences_wrapped⟩

/-- C9, witness for the general part. -/
theorem c9_witness :
    stripFences ((fence ++ sqlTag) ++ ("\nSELECT 1\n".data ++ fence)) =
      pyStrip "\nSELECT 1\n".data :=
  c9_fence_stripping.2 "\nSELECT 1\n".data (by decide)

/-- C10: when execution succeeds but yields no column descriptor
(`cursor.description is None`, e.g. for an INSERT), the list comprehension
on line 102 raises, the general-error handler reports it and returns
`([], [])`, and the driver then shows the "No data returned." warning and
no table. -/
theorem c10_none_descr (submit : Bool) (question : Str) (gen : Except Str Str)
    (cat : CatalogBehavior) (store : Str → StoreBehavior) (rows : List Row)
    (hexec : (pipeline submit question gen cat store).execCalled = true)
    (hstore : store (synthesizedSql gen) = StoreBehavior.result rows none) :
    read_sqlite_query (StoreBehavior.result rows none) =
      { rows := [], cols := [], msgs := [Msg.error (generalErrText noneIterText)],
        events := [ConnEvent.opened] } ∧
    Msg.warning noDataText ∈ (pipeline submit question gen cat store).msgs ∧
    (pipeline submit question gen cat store).table = none := by
  refine ⟨rfl, ?_⟩
  rcases pipeline_rundown submit question gen cat store with
    h | ⟨e, rfl, h⟩ | ⟨raw, rfl, hemp, h⟩ | ⟨raw, rfl, hne, hnm, h⟩ |
    ⟨raw, rows', rfl, hne, rfl, hrow, h⟩
  · rw [h] at hexec
    simp at hexec
  · rw [h] at hexec
    simp at hexec
  · rw [h] at hexec
    simp at hexec
  · rw [h] at hexec
    simp at hexec
  · rw [show synthesizedSql (Except.ok raw) = stripFences raw from rfl] at hstore
    rw [h, hstore]
    simp [read_sqlite_query, renderResults]

/-- C10, witness. -/
theorem c10_witness :
    read_sqlite_query (StoreBehavior.result [] none) =
      { rows := [], cols := [], msgs := [Msg.error (generalErrText noneIterText)],
        events := [ConnEvent.opened] } ∧
    Msg.warning noDataText ∈
      (pipeline true "q".data (Except.ok "INSERT INTO t VALUES (1)".data)
        (CatalogBehavior.tables [salesRow]) (fun _ => StoreBehavior.result [] none)).msgs ∧
    (pipeline true "q".data (Except.ok "INSERT INTO t VALUES (1)".data)
      (CatalogBehavior.tables [salesRow]) (fun _ => StoreBehavior.result [] none)).table =
      none :=
  c10_none_descr true "q".data (Except.ok "INSERT INTO t VALUES (1)".data)
    (CatalogBehavior.tables [salesRow]) (fun _ => StoreBehavior.result [] none) []
    (by decide) (by decide)
